import Mathlib

/-!
Verification of the connect-dyncache middleware (shallow embedding).

The middleware attaches caching helpers to an Express response object:
`res.autoEtag` (auto ETag negotiation with `res.write`/`res.end` hooks),
`res.setEtag`, `res.setLastModifiedDate`, `res.setExpires`, `res.setMaxAge`,
`res.setCacheControl`, and a process-wide file watch cache accessed through
`res.watchFile`, `res.isWatching`, `res.unwatchFile`, `res.isChanged`.

JavaScript peculiarities that matter and are modelled explicitly:
  * `new Date(undefined)` and `new Date(<garbage>)` produce an Invalid Date,
    which is an object and therefore TRUTHY; every comparison against an
    Invalid Date is false (its value is NaN).
  * `x || y` picks `y` only when `x` is falsy; a Date object is never falsy,
    the number 0 and the empty string are falsy, `undefined` is falsy.
Machine integers do not overflow here (JS numbers are doubles holding
millisecond timestamps well below 2^53), so timestamps are modelled as `Int`.
-/

namespace Dyncache

/-- JavaScript `Date` values: either a valid date holding a millisecond
timestamp, or the Invalid Date produced by failed parses. -/
inductive JSDate where
  | valid : Int → JSDate
  | invalid : JSDate
deriving DecidableEq, Repr

/-- JS comparison `a <= b` on two Dates: both convert via `valueOf` to a
number or NaN, and any comparison involving NaN is false. -/
def jsDateLe : JSDate → JSDate → Bool
  | JSDate.valid a, JSDate.valid b => decide (a ≤ b)
  | _, _ => false

/-- JS `date.toString()` / `date.toUTCString()`: an Invalid Date renders as
the literal string "Invalid Date"; rendering of valid dates is abstracted by
the formatter `fmt`. -/
def jsDateToString (fmt : Int → String) : JSDate → String
  | JSDate.valid t => fmt t
  | JSDate.invalid => "Invalid Date"

/-- Truthiness of `req.get(...)` / `res.get(...)` results: `undefined` and
the empty string are falsy, every other string is truthy. -/
def jsTruthy : Option String → Bool
  | none => false
  | some s => decide (s ≠ "")

/-- `new Date(x)` where `x` is a header lookup result: an absent header
(`undefined`) yields an Invalid Date, a present one is parsed by the
JS date parser, abstracted as `parse`. -/
def jsNewDateOpt (parse : String → JSDate) : Option String → JSDate
  | none => JSDate.invalid
  | some s => parse s

/-- The conditional request headers the middleware reads. -/
structure Request where
  ifNoneMatch : Option String
  ifModifiedSince : Option String
deriving DecidableEq, Repr

/-! ## Validator declarations (res.setEtag / res.setLastModifiedDate) -/

/-- Return value of `res.setEtag(etag)` (part_001 lines 110-118): true iff
`etag && req.get("if-none-match") == etag`; the empty string is falsy, and
`undefined == <string>` is false. -/
def setEtagRet (req : Request) (etag : String) : Bool :=
  decide (etag ≠ "") && (req.ifNoneMatch == some etag)

/-- Header value written by `res.setEtag(etag)` via `res.set('Etag', etag)`. -/
def setEtagHeader (etag : String) : String := etag

/-- Return value of `res.setLastModifiedDate(date)` (part_001 lines 129-138):
`ifModSince = new Date(req.get('if-modified-since'))` is a Date object and
hence always truthy, so the guard `ifModSince && date <= ifModSince` reduces
to the comparison; returns false (meaning "unchanged, you may short-circuit")
iff `date <= ifModSince`. -/
def setLastModifiedDateRet (parse : String → JSDate) (req : Request)
    (date : JSDate) : Bool :=
  if jsDateLe date (jsNewDateOpt parse req.ifModifiedSince) then false else true

/-- Header value written by `res.setLastModifiedDate(date)` via
`res.set('Last-Modified', date.toString())`. -/
def setLastModifiedDateHeader (fmt : Int → String) (date : JSDate) : String :=
  jsDateToString fmt date

/-! ## res.setExpires and res.setCacheControl -/

/-- Truthiness of a Date value: every Date is an object, so both valid and
Invalid Dates are truthy. -/
def jsTruthyDate : JSDate → Bool := fun _ => true

/-- The `Expires` header value written by `res.setExpires(date)`
(part_001 lines 154-157):
`date = new Date(date) || new Date((new Date()).getTime() + res._dynMaxAge)`
followed by `res.setHeader("Expires", date.toUTCString())`.
`new Date(date)` is always a (truthy) Date object, so the right operand of
`||` is kept only if the left were falsy. -/
def setExpires (fmt : Int → String) (now maxAge : Int)
    (date : Option JSDate) : String :=
  let d1 : JSDate := match date with
    | some d => d
    | none => JSDate.invalid
  let d : JSDate := if jsTruthyDate d1 then d1 else JSDate.valid (now + maxAge)
  jsDateToString fmt d

/-- `res.setCacheControl(age, keywords)` (part_001 lines 180-186): `keywords`
defaults to `["public"]` when absent (an array, even empty, is truthy);
`age || res._dynMaxAge` falls back to the stored max-age when `age` is absent
or 0 (0 is falsy); `keywords.push("max-age=" + age)` mutates the list; the
header value is `keywords.join(", ")`. Returns (header value, keyword list
after the push). -/
def setCacheControl (dynMaxAge : Int) (age : Option Int)
    (keywords : Option (List String)) : String × List String :=
  let kw := match keywords with
    | none => ["public"]
    | some k => k
  let a := match age with
    | none => dynMaxAge
    | some x => if x = 0 then dynMaxAge else x
  let kw2 := kw ++ ["max-age=" ++ toString a]
  (String.intercalate ", " kw2, kw2)

/-! ## res.autoEtag installation (part_001 lines 45-99)

`res.autoEtag` returns immediately when `res._autoEtagSet` is already true;
otherwise it replaces `res.write` and `res.end` with hooked versions and sets
the flag. The state records the flag and how many times each hook has been
installed (each non-guarded call performs one `res.write = ...` and one
`res.end = ...` assignment). -/

structure AutoEtagState where
  autoEtagSet : Bool
  writeHookInstalls : Nat
  endHookInstalls : Nat
deriving DecidableEq, Repr

def autoEtag (s : AutoEtagState) : AutoEtagState :=
  if s.autoEtagSet then s
  else
    { autoEtagSet := true
      writeHookInstalls := s.writeHookInstalls + 1
      endHookInstalls := s.endHookInstalls + 1 }

/-- The response state before any middleware call: flag unset, no hooks. -/
def freshAutoEtagState : AutoEtagState :=
  { autoEtagSet := false, writeHookInstalls := 0, endHookInstalls := 0 }

/-! ## The hooked res.end (part_001 lines 67-97)

Inputs captured at `res.autoEtag()` time: `etag0 = res.get('Etag')` and
`lastModified0 = res.get('Last-Modified')`; the hash is created only when
both are falsy. `chunks` are the body chunks passed to the hooked
`res.write` before finalization; `data` is the argument of `res.end(data)`.
`md5` abstracts the incremental md5 hex digest over the concatenated
chunk sequence. -/

inductive Verdict where
  | etag304 : Verdict
  | lm304 : Verdict
  | passthrough : Verdict
deriving DecidableEq, Repr

structure EndResult where
  /-- The `Etag` header newly set inside the hook (`some digest`), if any. -/
  etagHeader : Option String
  /-- Which branch finalized the response. -/
  verdict : Verdict
  /-- Whether the guard `etag && req.header("if-none-match") == etag`
  reached the `==` comparison with a truthy etag value. -/
  comparedEtag : Bool
deriving DecidableEq, Repr

/-- JS guard `etag && req.header("if-none-match") == etag` where `etag` is a
string variable that may be `undefined`/empty (falsy). -/
def etagMatches (etag : Option String) (inm : Option String) : Bool :=
  match etag with
  | some e => decide (e ≠ "") && (inm == some e)
  | none => false

def endOverride (md5 : List String → String) (parse : String → JSDate)
    (req : Request) (etag0 lastModified0 : Option String)
    (chunks : List String) (data : Option String) : EndResult :=
  let hashActive : Bool := !(jsTruthy etag0 || jsTruthy lastModified0)
  let setDigest : Option String :=
    match data with
    | some d => if decide (d ≠ "") && hashActive
                then some (md5 (chunks ++ [d])) else none
    | none => none
  let etag : Option String :=
    match setDigest with
    | some e => some e
    | none => etag0
  let compared := jsTruthy etag
  if etagMatches etag req.ifNoneMatch then
    { etagHeader := setDigest, verdict := Verdict.etag304,
      comparedEtag := compared }
  else if jsTruthy lastModified0 then
    let lm := jsNewDateOpt parse lastModified0
    let ifModSince := jsNewDateOpt parse req.ifModifiedSince
    if jsTruthy req.ifModifiedSince && jsDateLe lm ifModSince then
      { etagHeader := setDigest, verdict := Verdict.lm304,
        comparedEtag := compared }
    else
      { etagHeader := setDigest, verdict := Verdict.passthrough,
        comparedEtag := compared }
  else
    { etagHeader := setDigest, verdict := Verdict.passthrough,
      comparedEtag := compared }

/-! ## The file watch cache (part_001 lines 189-281) -/

/-- One entry of `__watchFiles` (part_001 lines 198-216). -/
structure WatchEntry where
  /-- Timestamp when the entry was (re)created: `(new Date()).getTime()`. -/
  changed : Int
  /-- md5 hex digest of `JSON.stringify(stats)`. -/
  etag : String
  /-- `stats.mtime.getTime()`. -/
  modified : Int
  /-- `stats.mtime.getTime() + res._dynMaxAge`. -/
  expires : Int
deriving DecidableEq, Repr

abbrev Cache := List (String × WatchEntry)

/-- Property lookup `__watchFiles[file]` (keys are unique: every store goes
through `cacheInsert`). -/
def cacheGet (c : Cache) (file : String) : Option WatchEntry :=
  match c with
  | [] => none
  | (k, v) :: rest => if k = file then some v else cacheGet rest file

/-- `delete __watchFiles[file]`. -/
def cacheErase (c : Cache) (file : String) : Cache :=
  match c with
  | [] => []
  | (k, v) :: rest =>
    if k = file then cacheErase rest file else (k, v) :: cacheErase rest file

/-- `__watchFiles[file] = e`. -/
def cacheInsert (c : Cache) (file : String) (e : WatchEntry) : Cache :=
  (file, e) :: cacheErase c file

/-- The ambient environment of one `isChanged`/`watchFile` call: the abstract
filesystem (`fs.existsSync`, `fs.lstatSync(..).mtime`, and the md5 digest of
the stringified stat record), the current clock reading `now`, and the
configured `res._dynMaxAge`. -/
structure Env where
  fexists : String → Bool
  mtime : String → Int
  statDigest : String → String
  now : Int
  maxAge : Int

/-- The entry `res.watchFile` builds for an existing file
(part_001 lines 201-210). -/
def freshEntry (env : Env) (file : String) : WatchEntry :=
  { changed := env.now
    etag := env.statDigest file
    modified := env.mtime file
    expires := env.mtime file + env.maxAge }

/-- `res.watchFile(file)` (part_001 lines 198-221): when the file exists,
builds the entry and stores it under `file`, returning it; when it does not
exist, returns the sentinel `false` (here `none`) and performs no cache
mutation. Result: (cache after the call, returned entry or sentinel). -/
def watchFile (env : Env) (c : Cache) (file : String) :
    Cache × Option WatchEntry :=
  if env.fexists file then
    (cacheInsert c file (freshEntry env file), some (freshEntry env file))
  else
    (c, none)

/-- `res.isWatching(file)` (part_001 lines 229-231). -/
def isWatching (c : Cache) (file : String) : Bool :=
  (cacheGet c file).isSome

/-- `res.unwatchFile(file)` (part_001 lines 239-242). -/
def unwatchFile (c : Cache) (file : String) : Cache :=
  cacheErase c file

/-- The unexpired branch of `res.isChanged` (part_001 lines 267-276): declare
the stored etag and modification date, then
`if (isModified == false && isEtagged) return false else return true`. -/
def isChangedEval (parse : String → JSDate) (req : Request)
    (obj : WatchEntry) : Bool :=
  let isEtagged := setEtagRet req obj.etag
  let isModified := setLastModifiedDateRet parse req (JSDate.valid obj.modified)
  if (isModified == false) && isEtagged then false else true

/-- `res.isChanged(file, force)` (part_001 lines 252-281), with explicit fuel
because the source recursion (`return res.isChanged(file)` after a refresh)
is not structurally bounded. Returns `none` when the fuel is exhausted
(i.e. the source call has not returned within that recursion depth), or
`some (result, cache after the call, number of res.watchFile invocations)`.
The clock and filesystem are held fixed across the recursion. -/
def isChangedFuel (parse : String → JSDate) (req : Request) (env : Env)
    (fuel : Nat) (c : Cache) (file : String) (force : Bool) :
    Option (Bool × Cache × Nat) :=
  match fuel with
  | 0 => none
  | fuel + 1 =>
    match cacheGet c file with
    | none => some (true, c, 0)
    | some obj =>
      if force || decide (obj.expires < env.now) then
        let c2 := (watchFile env (cacheErase c file) file).1
        match isChangedFuel parse req env fuel c2 file false with
        | none => none
        | some (b, c3, n) => some (b, c3, n + 1)
      else
        some (isChangedEval parse req obj, c, 0)

/-- Number of `res.watchFile` invocations of a completed `isChanged` call. -/
def restatCount (r : Option (Bool × Cache × Nat)) : Option Nat :=
  r.map (fun x => x.2.2)

/-! ## Spec-side definitions (Negotiation Engine, section 4.3 of the spec)

These follow the spec's words, for refinement statements only:
`matchesLastModified(declared, ifModifiedSince)` is true iff the header is
present, parses to a valid timestamp, and `declared <= ifModifiedSince`;
`matchesEtag` is true iff both values are present and equal. -/

def specMatchesLastModified (parse : String → JSDate) (declared : Int)
    (ifModifiedSince : Option String) : Bool :=
  match ifModifiedSince with
  | none => false
  | some s =>
    match parse s with
    | JSDate.valid t => decide (declared ≤ t)
    | JSDate.invalid => false

def specMatchesEtag (declared : Option String) (ifNoneMatch : Option String) : Bool :=
  match declared, ifNoneMatch with
  | some d, some i => decide (d = i)
  | _, _ => false

/-! ## Helper lemmas -/

theorem jsDateLe_invalid_right (a : JSDate) : jsDateLe a JSDate.invalid = false := by
  cases a <;> rfl

theorem jsDateLe_valid_eq_spec (parse : String → JSDate) (m : Int)
    (ims : Option String) :
    jsDateLe (JSDate.valid m) (jsNewDateOpt parse ims) =
      specMatchesLastModified parse m ims := by
  cases ims with
  | none => rfl
  | some s =>
    cases h : parse s <;>
      simp [jsNewDateOpt, jsDateLe, specMatchesLastModified, h]

theorem cacheGet_erase_self (c : Cache) (file : String) :
    cacheGet (cacheErase c file) file = none := by
  induction c with
  | nil => rfl
  | cons p rest ih =>
    obtain ⟨k, v⟩ := p
    by_cases h : k = file <;> simp [cacheErase, cacheGet, h, ih]

theorem cacheGet_insert_self (c : Cache) (file : String) (e : WatchEntry) :
    cacheGet (cacheInsert c file e) file = some e := by
  simp [cacheInsert, cacheGet]

theorem setLastModifiedDateRet_eq_false_iff (parse : String → JSDate)
    (req : Request) (m : Int) :
    (setLastModifiedDateRet parse req (JSDate.valid m) = false ↔
      specMatchesLastModified parse m req.ifModifiedSince = true) := by
  rw [setLastModifiedDateRet, jsDateLe_valid_eq_spec]
  cases h : specMatchesLastModified parse m req.ifModifiedSince <;> simp [h]

theorem isChangedEval_eq_false_iff (parse : String → JSDate) (req : Request)
    (obj : WatchEntry) (h : obj.etag ≠ "") :
    (isChangedEval parse req obj = false ↔
      (specMatchesLastModified parse obj.modified req.ifModifiedSince = true ∧
       req.ifNoneMatch = some obj.etag)) := by
  rw [isChangedEval]
  constructor
  · intro he
    by_cases hc : ((setLastModifiedDateRet parse req (JSDate.valid obj.modified) == false) &&
        setEtagRet req obj.etag) = true
    · have h1 : setLastModifiedDateRet parse req (JSDate.valid obj.modified) = false := by
        have := (Bool.and_eq_true _ _).mp hc
        simpa using this.1
      have h2 : setEtagRet req obj.etag = true := ((Bool.and_eq_true _ _).mp hc).2
      refine ⟨(setLastModifiedDateRet_eq_false_iff parse req obj.modified).mp h1, ?_⟩
      have := h2
      rw [setEtagRet] at this
      have h3 : (req.ifNoneMatch == some obj.etag) = true :=
        ((Bool.and_eq_true _ _).mp this).2
      simpa using h3
    · rw [if_neg] at he
      · exact absurd he (by simp)
      · exact fun hp => hc hp
  · rintro ⟨h1, h2⟩
    rw [if_pos]
    apply (Bool.and_eq_true _ _).mpr
    constructor
    · simpa using (setLastModifiedDateRet_eq_false_iff parse req obj.modified).mpr h1
    · rw [setEtagRet]
      apply (Bool.and_eq_true _ _).mpr
      exact ⟨by simpa using h, by simpa using h2⟩

theorem isChangedFuel_not_watching (parse : String → JSDate) (req : Request)
    (env : Env) (fuel : Nat) (c : Cache) (file : String) (force : Bool)
    (h : cacheGet c file = none) :
    isChangedFuel parse req env (fuel + 1) c file force = some (true, c, 0) := by
  simp [isChangedFuel, h]

theorem isChangedFuel_fresh (parse : String → JSDate) (req : Request)
    (env : Env) (fuel : Nat) (c : Cache) (file : String) (obj : WatchEntry)
    (h : cacheGet c file = some obj) (h2 : ¬ obj.expires < env.now) :
    isChangedFuel parse req env (fuel + 1) c file false =
      some (isChangedEval parse req obj, c, 0) := by
  simp [isChangedFuel, h, h2]

theorem isChangedFuel_refresh (parse : String → JSDate) (req : Request)
    (env : Env) (fuel : Nat) (c : Cache) (file : String) (force : Bool)
    (obj : WatchEntry)
    (h : cacheGet c file = some obj) (h2 : force = true ∨ obj.expires < env.now) :
    isChangedFuel parse req env (fuel + 1) c file force =
      match isChangedFuel parse req env fuel
            ((watchFile env (cacheErase c file) file).1) file false with
      | none => none
      | some (b, c3, n) => some (b, c3, n + 1) := by
  have hcond : (force || decide (obj.expires < env.now)) = true := by
    rcases h2 with h2 | h2 <;> simp [h2]
  simp only [isChangedFuel, h, hcond, if_true]

/-- After a refresh of an expired (or force-refreshed) entry whose fresh
replacement is not itself already expired (or whose file vanished), the call
completes within one recursion and exactly one `res.watchFile` invocation. -/
theorem isChangedFuel_refresh_completes (parse : String → JSDate) (req : Request)
    (env : Env) (c : Cache) (file : String) (force : Bool) (obj : WatchEntry)
    (h : cacheGet c file = some obj)
    (h2 : force = true ∨ obj.expires < env.now)
    (h3 : env.fexists file = false ∨ env.now ≤ env.mtime file + env.maxAge) :
    isChangedFuel parse req env 2 c file force =
      some (if env.fexists file
            then isChangedEval parse req (freshEntry env file) else true,
            (watchFile env (cacheErase c file) file).1, 1) := by
  rw [show (2 : Nat) = 1 + 1 from rfl,
      isChangedFuel_refresh parse req env 1 c file force obj h h2]
  cases hex : env.fexists file with
  | false =>
    have hw : (watchFile env (cacheErase c file) file).1 = cacheErase c file := by
      simp [watchFile, hex]
    rw [hw, isChangedFuel_not_watching parse req env 0 _ file false
          (cacheGet_erase_self c file)]
    simp [watchFile, hex]
  | true =>
    have h4 : env.now ≤ env.mtime file + env.maxAge := by
      rcases h3 with h3 | h3
      · rw [hex] at h3; exact absurd h3 (by simp)
      · exact h3
    have hw : (watchFile env (cacheErase c file) file).1 =
        cacheInsert (cacheErase c file) file (freshEntry env file) := by
      simp [watchFile, hex]
    have hfr : ¬ (freshEntry env file).expires < env.now := by
      simp only [freshEntry]
      omega
    rw [hw, isChangedFuel_fresh parse req env 0 _ file (freshEntry env file)
          (cacheGet_insert_self _ _ _) hfr]
    simp [watchFile, hex]

/-! ## Concrete fixtures used by witnesses and counterexamples -/

/-- A request carrying neither conditional header. -/
def reqX : Request := { ifNoneMatch := none, ifModifiedSince := none }

/-- A date parser rejecting every string (all parses invalid). -/
def parseX : String → JSDate := fun _ => JSDate.invalid

/-- A date parser accepting exactly the string "Mon" as timestamp 200. -/
def parseW1 : String → JSDate :=
  fun s => if s = "Mon" then JSDate.valid 200 else JSDate.invalid

def reqW1 : Request := { ifNoneMatch := some "E1", ifModifiedSince := some "Mon" }

def envW1 : Env :=
  { fexists := fun _ => true, mtime := fun _ => 100,
    statDigest := fun _ => "E1", now := 300, maxAge := 400 }

def entryW1 : WatchEntry :=
  { changed := 0, etag := "E1", modified := 100, expires := 500 }

def reqC2 : Request := { ifNoneMatch := none, ifModifiedSince := some "Thu" }

def parseC2 : String → JSDate :=
  fun s => if s = "Thu" then JSDate.valid 200 else JSDate.invalid

def envC3 : Env :=
  { fexists := fun _ => true, mtime := fun _ => 0,
    statDigest := fun _ => "d", now := 5000, maxAge := 1000 }

def entryC3 : WatchEntry :=
  { changed := 0, etag := "d", modified := 0, expires := 1000 }

def envW3 : Env :=
  { fexists := fun _ => true, mtime := fun _ => 900,
    statDigest := fun _ => "w3", now := 1000, maxAge := 500 }

def entryW3 : WatchEntry :=
  { changed := 0, etag := "w3", modified := 900, expires := 800 }

def envC4 : Env :=
  { fexists := fun _ => false, mtime := fun _ => 0,
    statDigest := fun _ => "", now := 0, maxAge := 0 }

def entryC4 : WatchEntry :=
  { changed := 1, etag := "old", modified := 2, expires := 3 }

def envW4 : Env :=
  { fexists := fun f => f == "a", mtime := fun _ => 50,
    statDigest := fun _ => "D", now := 60, maxAge := 9 }

def reqC5 : Request := { ifNoneMatch := none, ifModifiedSince := some "garbage" }

def envC6 : Env :=
  { fexists := fun _ => true, mtime := fun _ => 10,
    statDigest := fun _ => "g", now := 30, maxAge := 7 }

def entryC6 : WatchEntry :=
  { changed := 0, etag := "g", modified := 10, expires := 17 }

def envW6 : Env :=
  { fexists := fun _ => true, mtime := fun _ => 2000,
    statDigest := fun _ => "w6", now := 2100, maxAge := 300 }

def entryW6 : WatchEntry :=
  { changed := 0, etag := "w6", modified := 1000, expires := 1500 }

/-! ## Claims -/

/-- C1: for every path, `isChanged` returns true when the path is not
watched; and for a watched, unexpired, non-forced entry it returns false
(unchanged) iff the Last-Modified comparison reports no change (the
If-Modified-Since header is present, parses to a valid timestamp, and the
entry's modification time is at most it) AND the stored ETag equals the
request's If-None-Match — if either signal indicates change, it returns
true. (The stored etag is an md5 hex digest, hence nonempty.) -/
theorem c1_isChanged_verdict (parse : String → JSDate) (req : Request)
    (env : Env) (fuel : Nat) (c : Cache) (file : String) :
    (cacheGet c file = none →
      ∀ force : Bool,
        isChangedFuel parse req env (fuel + 1) c file force = some (true, c, 0)) ∧
    (∀ obj : WatchEntry, cacheGet c file = some obj →
      ¬ obj.expires < env.now → obj.etag ≠ "" →
      (isChangedFuel parse req env (fuel + 1) c file false = some (false, c, 0) ↔
        (specMatchesLastModified parse obj.modified req.ifModifiedSince = true ∧
         req.ifNoneMatch = some obj.etag))) := by
  constructor
  · intro h force
    exact isChangedFuel_not_watching parse req env fuel c file force h
  · intro obj h h2 h3
    rw [isChangedFuel_fresh parse req env fuel c file obj h h2]
    rw [← isChangedEval_eq_false_iff parse req obj h3]
    constructor
    · intro he
      exact congrArg Prod.fst (Option.some.inj he)
    · intro he
      rw [he]

/-- C1 witness: a watched, unexpired entry with both validators matching
yields "not changed". -/
theorem c1_witness :
    isChangedFuel parseW1 reqW1 envW1 1 [("f", entryW1)] "f" false =
      some (false, [("f", entryW1)], 0) :=
  ((c1_isChanged_verdict parseW1 reqW1 envW1 0 [("f", entryW1)] "f").2
      entryW1 rfl (by decide) (by decide)).mpr ⟨by decide, rfl⟩

/-- C2 counterexample: with If-Modified-Since parsing to timestamp 200 and a
declared Last-Modified of 100 (so the resource is unchanged, 100 ≤ 200),
`res.setLastModifiedDate` returns FALSE, not true as the claim states. -/
theorem c2_counterexample :
    jsDateLe (JSDate.valid 100) (jsNewDateOpt parseC2 reqC2.ifModifiedSince)
      = true ∧
    setLastModifiedDateRet parseC2 reqC2 (JSDate.valid 100) = false := by
  decide

/-- C2 (amended): `res.setLastModifiedDate(d)` sets the Last-Modified header
to the date's string rendering and returns FALSE exactly when the resource
is unchanged relative to If-Modified-Since (header present, parses to a
valid timestamp, and d ≤ it); a false return tells the caller it may
short-circuit; a true return means changed. -/
theorem c2_setLastModifiedDate_amended (fmt : Int → String)
    (parse : String → JSDate) (req : Request) (d : Int) :
    setLastModifiedDateHeader fmt (JSDate.valid d) = fmt d ∧
    (setLastModifiedDateRet parse req (JSDate.valid d) = false ↔
      specMatchesLastModified parse d req.ifModifiedSince = true) :=
  ⟨rfl, setLastModifiedDateRet_eq_false_iff parse req d⟩

/-- C3 counterexample: with a non-zero configured max-age (1000) and a
watched, expired entry, the refreshed entry (expires = mtime + maxAge) is
itself already expired at the current time, so the recursion re-runs: with
fuel for the claimed one-refresh-then-evaluate shape (depth 3) the call has
not returned. -/
theorem c3_counterexample :
    envC3.maxAge ≠ 0 ∧
    (freshEntry envC3 "f").expires < envC3.now ∧
    isChangedFuel parseX reqX envC3 3 [("f", entryC3)] "f" false = none := by
  decide

/-- C3 (amended): for a watched entry that is expired or force-refreshed, a
single `isChanged` call performs exactly one `res.watchFile` invocation and
terminates after the single recursion, PROVIDED the refreshed entry is not
itself already expired (now ≤ mtime + maxAge) or the file no longer exists;
a non-zero max-age alone does not suffice (see the counterexample, where the
recursion does not terminate). -/
theorem c3_single_restat (parse : String → JSDate) (req : Request) (env : Env)
    (c : Cache) (file : String) (force : Bool) (obj : WatchEntry)
    (h : cacheGet c file = some obj)
    (h2 : force = true ∨ obj.expires < env.now)
    (h3 : env.fexists file = false ∨ env.now ≤ env.mtime file + env.maxAge) :
    restatCount (isChangedFuel parse req env 2 c file force) = some 1 := by
  rw [isChangedFuel_refresh_completes parse req env c file force obj h h2 h3]
  rfl

/-- C3 witness: an expired entry whose refresh is fresh completes with one
re-stat. -/
theorem c3_witness :
    restatCount (isChangedFuel parseX reqX envW3 2 [("f", entryW3)] "f" false) =
      some 1 :=
  c3_single_restat parseX reqX envW3 [("f", entryW3)] "f" false entryW3 rfl
    (Or.inr (by decide)) (Or.inr (by decide))

/-- C4 counterexample: `res.watchFile` on a nonexistent path returns the
sentinel, but it does NOT leave the watch cache without an entry for that
path: a pre-existing entry (watched earlier, file deleted since) is
retained. -/
theorem c4_counterexample :
    (watchFile envC4 [("f", entryC4)] "f").2 = none ∧
    cacheGet (watchFile envC4 [("f", entryC4)] "f").1 "f" = some entryC4 := by
  decide

/-- C4 (amended): `res.watchFile(p)` on a nonexistent path returns the
sentinel (no throw) and leaves the cache UNCHANGED — it does not insert an
entry, and any pre-existing entry for p is retained; on an existing path it
inserts/replaces the entry, with modifiedAt taken from the file's stat mtime
and expiresAt = modifiedAt + the configured max-age. -/
theorem c4_watchFile_amended (env : Env) (c : Cache) (file : String) :
    (env.fexists file = false → watchFile env c file = (c, none)) ∧
    (env.fexists file = true →
      watchFile env c file =
        (cacheInsert c file (freshEntry env file), some (freshEntry env file)) ∧
      (freshEntry env file).modified = env.mtime file ∧
      (freshEntry env file).expires = env.mtime file + env.maxAge ∧
      cacheGet (watchFile env c file).1 file = some (freshEntry env file)) := by
  constructor
  · intro h
    simp [watchFile, h]
  · intro h
    refine ⟨by simp [watchFile, h], rfl, rfl, ?_⟩
    simp [watchFile, h, cacheGet_insert_self]

/-- C4 witness: one nonexistent path ("b") gives the sentinel and an
unchanged cache; one existing path ("a") gets an entry with expiresAt =
mtime + maxAge. -/
theorem c4_witness :
    watchFile envW4 [] "b" = ([], none) ∧
    cacheGet (watchFile envW4 [] "a").1 "a" = some (freshEntry envW4 "a") :=
  ⟨(c4_watchFile_amended envW4 [] "b").1 (by decide),
   ((c4_watchFile_amended envW4 [] "a").2 (by decide)).2.2.2⟩

/-- C5: when If-Modified-Since is absent or does not parse to a valid
timestamp (i.e. `new Date(header)` is an Invalid Date), the Last-Modified
comparison never matches: `res.setLastModifiedDate` returns true (changed)
for every declared date, and the finalize-time check in the hooked `res.end`
never takes the Last-Modified 304 branch. -/
theorem c5_malformed_ims_never_matches (parse : String → JSDate) (req : Request)
    (h : jsNewDateOpt parse req.ifModifiedSince = JSDate.invalid) :
    (∀ d : JSDate, setLastModifiedDateRet parse req d = true) ∧
    (∀ (md5 : List String → String) (etag0 lastModified0 : Option String)
       (chunks : List String) (data : Option String),
       (endOverride md5 parse req etag0 lastModified0 chunks data).verdict ≠
         Verdict.lm304) := by
  constructor
  · intro d
    simp [setLastModifiedDateRet, h, jsDateLe_invalid_right]
  · intro md5 etag0 lastModified0 chunks data
    simp only [endOverride, h, jsDateLe_invalid_right, Bool.and_false]
    split
    · simp
    · split <;> simp

/-- C5 witness: an unparsable If-Modified-Since header yields "changed". -/
theorem c5_witness :
    setLastModifiedDateRet parseX reqC5 (JSDate.valid 5) = true :=
  (c5_malformed_ims_never_matches parseX reqC5 rfl).1 (JSDate.valid 5)

/-- C6 counterexample: a watched file whose expiresAt has passed, whose stat
is unchanged (same mtime) with the same non-zero max-age: the refreshed
entry's expiresAt EQUALS the previous one (not strictly greater), the
refreshed entry is still expired, and the call performs further re-stats
instead of exactly one (it has not returned at recursion depth 5). -/
theorem c6_counterexample :
    envC6.maxAge ≠ 0 ∧
    entryC6.expires < envC6.now ∧
    (freshEntry envC6 "f").expires = entryC6.expires ∧
    isChangedFuel parseX reqX envC6 5 [("f", entryC6)] "f" false = none := by
  decide

/-- C6 (amended): for a watched file whose expiresAt has passed, `isChanged`
triggers exactly one re-stat and the refreshed entry's expiresAt (= the
file's current mtime + configured max-age) is strictly greater than the
previous one, PROVIDED the refreshed entry is itself unexpired (current time
≤ mtime + max-age — e.g. the file was modified recently); a non-zero
max-age alone does not suffice (see the counterexample: an untouched file
yields an equal expiresAt and a non-terminating chain of re-stats). -/
theorem c6_refresh_expires (parse : String → JSDate) (req : Request) (env : Env)
    (c : Cache) (file : String) (obj : WatchEntry)
    (h : cacheGet c file = some obj)
    (h2 : obj.expires < env.now)
    (_hex : env.fexists file = true)
    (hfresh : env.now ≤ env.mtime file + env.maxAge) :
    restatCount (isChangedFuel parse req env 2 c file false) = some 1 ∧
    (freshEntry env file).expires = env.mtime file + env.maxAge ∧
    obj.expires < (freshEntry env file).expires := by
  refine ⟨?_, rfl, ?_⟩
  · rw [isChangedFuel_refresh_completes parse req env c file false obj h
        (Or.inr h2) (Or.inr hfresh)]
    rfl
  · show obj.expires < env.mtime file + env.maxAge
    exact lt_of_lt_of_le h2 hfresh

/-- C6 witness: an expired entry on a recently-modified file refreshes with
one re-stat and a strictly larger expiresAt. -/
theorem c6_witness :
    restatCount (isChangedFuel parseX reqX envW6 2 [("g", entryW6)] "g" false) =
      some 1 ∧
    entryW6.expires < (freshEntry envW6 "g").expires :=
  ⟨(c6_refresh_expires parseX reqX envW6 [("g", entryW6)] "g" entryW6 rfl
      (by decide) rfl (by decide)).1,
   (c6_refresh_expires parseX reqX envW6 [("g", entryW6)] "g" entryW6 rfl
      (by decide) rfl (by decide)).2.2⟩

/-- C7: `res.autoEtag` is idempotent: a second call within one request is a
no-op guarded by the `_autoEtagSet` flag, so from a fresh response the
write and end hooks are installed exactly once whether it is called once or
twice. -/
theorem c7_autoEtag_idempotent (s : AutoEtagState) :
    autoEtag (autoEtag s) = autoEtag s ∧
    autoEtag freshAutoEtagState =
      { autoEtagSet := true, writeHookInstalls := 1, endHookInstalls := 1 } ∧
    autoEtag (autoEtag freshAutoEtagState) =
      { autoEtagSet := true, writeHookInstalls := 1, endHookInstalls := 1 } := by
  refine ⟨?_, by decide, by decide⟩
  by_cases h : s.autoEtagSet = true <;> simp [autoEtag, h]

/-- C8 counterexample: a passed age of 0 is falsy in JS, so
`age = age || res._dynMaxAge` falls back to the stored max-age: with stored
max-age 5000, `res.setCacheControl(0, ["public"])` emits
"public, max-age=5000", not "public, max-age=0" as the claim's reading of
"max-age=<age>" for the passed age requires. -/
theorem c8_counterexample :
    setCacheControl 5000 (some 0) (some ["public"]) =
      ("public, max-age=5000", ["public", "max-age=5000"]) ∧
    (setCacheControl 5000 (some 0) (some ["public"])).1 ≠
      "public, max-age=0" := by
  decide

/-- C8 (amended): `res.setCacheControl` joins the keyword list and
"max-age=<age>" with ", " into the Cache-Control value and returns the
mutated keyword list (max-age pushed onto it), where the age used is the
passed one when it is non-zero (a passed 0 is falsy in JS and, like an
omitted age, falls back to the stored max-age); the age defaults to the
stored max-age when omitted and the keywords to ["public"] when omitted;
in particular (3600, ["public"]) yields "public, max-age=3600". -/
theorem c8_setCacheControl (dyn : Int) (age : Int) (kw : List String)
    (h : age ≠ 0) :
    setCacheControl 0 (some 3600) (some ["public"]) =
      ("public, max-age=3600", ["public", "max-age=3600"]) ∧
    setCacheControl dyn (some age) (some kw) =
      (String.intercalate ", " (kw ++ ["max-age=" ++ toString age]),
       kw ++ ["max-age=" ++ toString age]) ∧
    setCacheControl dyn none none =
      (String.intercalate ", " (["public"] ++ ["max-age=" ++ toString dyn]),
       ["public"] ++ ["max-age=" ++ toString dyn]) := by
  refine ⟨by decide, ?_, rfl⟩
  simp [setCacheControl, h]

/-- C8 witness: a concrete non-default call. -/
theorem c8_witness :
    setCacheControl 7 (some 42) (some ["private"]) =
      (String.intercalate ", " (["private"] ++ ["max-age=" ++ toString (42 : Int)]),
       ["private"] ++ ["max-age=" ++ toString (42 : Int)]) :=
  (c8_setCacheControl 7 42 ["private"] (by decide)).2.1

/-- C9: `res.setExpires()` with no date argument does NOT derive
now + storedMaxAge: `new Date(undefined)` is a (truthy) Invalid Date, so the
`||` fallback is dead code and the Expires header is set to the literal
string "Invalid Date" for every clock value and stored max-age; in
particular it differs from the HTTP-date of now + maxAge. -/
theorem c9_setExpires_no_arg (fmt : Int → String) (now maxAge : Int) :
    setExpires fmt now maxAge none = "Invalid Date" ∧
    setExpires (fun t => "@" ++ toString t) 1000 60000 none ≠
      "@" ++ toString (1000 + 60000 : Int) :=
  ⟨rfl, by decide⟩

/-- C10: under auto-negotiation with no explicitly declared validator, when
`res.end` is invoked with no data argument, no ETag header is set and the
digest is never compared against If-None-Match (the 304 branch cannot
fire), regardless of what was streamed through the hooked `res.write`. -/
theorem c10_no_data_no_etag (md5 : List String → String)
    (parse : String → JSDate) (req : Request) (chunks : List String) :
    endOverride md5 parse req none none chunks none =
      { etagHeader := none, verdict := Verdict.passthrough,
        comparedEtag := false } :=
  rfl

end Dyncache
